import Mathlib

/-!
Verification of the HammyCam motion-detection engine against its specification.

The repository contains two detector variants:

* the simple whole-frame percentage-change detector
  `CameraAnalyzer.was_motion_detected` in `camera_analyzer.py` (lines 318-332),
  driven by `CameraAnalyzer.run` (lines 236-316);
* the contour / bounding-box detector
  `MotionDetector.detect_motion` in `examples/example_motion_detector.py`
  (lines 89-136).

Both are shallowly embedded below.  Frames are lists of rows of pixel values
(the numpy arrays of the source); external OpenCV primitives whose numeric
kernels are not part of the repository (BGR-to-luma coefficients of
`cv2.cvtColor`, the Gaussian blur, `cv2.findContours` together with
`cv2.contourArea` / `cv2.boundingRect`) are taken as parameters of the
embedded functions, while the arithmetic the repository itself relies on
(`cv2.absdiff`, `cv2.threshold` with `THRESH_BINARY`, `cv2.dilate` with the
default 3x3 kernel, `np.count_nonzero`, the percentage computation, the
contour-area filter and the bounding-box drawing loop) is embedded concretely.
Python floats are modelled as exact rationals.  OpenCV raises an exception
when `cvtColor` receives an empty array or `None` and when `absdiff` receives
arrays of different sizes; those failure conditions are modelled by the
constructors of `DetectError`, in the evaluation order of the source.
-/

namespace HammyCam

/-- A pixel of a colour frame: a BGR triple of channel intensities
(cv2 channel order), each in 0..255. -/
abbrev Pixel := Nat × Nat × Nat

/-- A colour frame: rows of pixels (a numpy array of shape h x w x 3,
represented as its list of rows). -/
abbrev ColorFrame := List (List Pixel)

/-- A single-channel (grayscale) frame. -/
abbrev Gray := List (List Nat)

/-- Profile of row lengths of a frame.  Two rectangular frames have the same
cv2 size (height, width) iff their shapes are equal. -/
def shape (g : List (List α)) : List Nat := g.map List.length

/-- Height of the array, `shape[0]` in the source. -/
def numRows (g : List (List α)) : Nat := g.length

/-- Width of the array, `shape[1]` in the source (width of the first row). -/
def numCols (g : List (List α)) : Nat := (g.headD []).length

/-- Total number of pixels, `shape[0] * shape[1]` in the source.  A cv2 array
is empty iff this is zero. -/
def totalPixels (g : List (List α)) : Nat := numRows g * numCols g

/-- A list of rows represents a genuine rectangular array: every row has the
width of the first one. -/
abbrev isRect (g : List (List α)) : Prop :=
  shape g = List.replicate g.length (numCols g)

/-- Models `cv2.cvtColor(frame, cv2.COLOR_BGR2GRAY)`: a per-pixel luminance
map applied to every pixel, hence shape preserving.  The numeric BGR-to-luma
coefficients are internal to OpenCV, so the pixel map is a parameter. -/
def cvtGray (cvt : Pixel → Nat) (f : ColorFrame) : Gray :=
  f.map (fun r => r.map cvt)

/-- Models `cv2.absdiff` on two equal-size single-channel arrays:
pointwise absolute difference. -/
def absdiffG (a b : Gray) : Gray :=
  List.zipWith (List.zipWith Nat.dist) a b

/-- Models `cv2.threshold(src, t, 255, cv2.THRESH_BINARY)`: each destination
pixel is 255 where the source pixel strictly exceeds `t`, else 0. -/
def thresholdBin (t : Int) (g : Gray) : Gray :=
  g.map (fun r => r.map (fun (v : Nat) => if (v : Int) > t then (255 : Nat) else 0))

/-- Models `np.count_nonzero` on a single-channel array. -/
def countNonzero (g : Gray) : Nat :=
  (g.map (fun r => r.countP (fun v => decide (v ≠ 0)))).sum

/-- Specification-level count of changed pixels between two grayscale frames:
the number of positions whose absolute intensity difference strictly exceeds
the fixed intensity threshold 25. -/
def changedPixelCount (a b : Gray) : Nat :=
  ((absdiffG a b).map (fun r => r.countP (fun (v : Nat) => decide ((v : Int) > 25)))).sum

/-- Failure modes of a detection call.  In the source these surface as the
exceptions OpenCV raises: `emptyFrame` for `cvtColor` on a zero-area array,
`unsupportedInput` for `cvtColor` applied to `None`, and `dimensionMismatch`
for `absdiff` on arrays of different sizes. -/
inductive DetectError where
  | emptyFrame
  | dimensionMismatch
  | unsupportedInput
  deriving DecidableEq

deriving instance DecidableEq for Except

/-- Detection-relevant state of `camera_analyzer.CameraAnalyzer`.  The
constructor (lines 31-51) additionally stores acquisition fields
(`source_type`, `source_path`, `display`, `cap`, `frame_count`, `start_time`);
its only detection parameter is `motion_threshold`. -/
structure CameraAnalyzer where
  motion_threshold : ℚ
  deriving DecidableEq

/-- Construction of a `CameraAnalyzer` (lines 31-51): no configuration
parameter for detection exists and no validation is performed; line 47 always
sets `motion_threshold` to the float literal `0.30`. -/
def CameraAnalyzer.init : CameraAnalyzer :=
  { motion_threshold := 3 / 10 }

/-- Embedding of `CameraAnalyzer.was_motion_detected(frame, last_frame)`
(lines 318-332).  Following the source's evaluation order: `cv2.cvtColor`
of `frame` (raises on an empty array), `cv2.cvtColor` of `last_frame` (raises
on `None` and on an empty array), `cv2.absdiff` (raises when the two grayscale
arrays differ in size), then `cv2.threshold(diff, 25, 255, THRESH_BINARY)`,
`np.count_nonzero`, `change_percent = changed / total * 100` and the verdict
`change_percent >= self.motion_threshold`.  There is no handling for an
absent previous frame: `last_frame = None` is a raised exception, never a
verdict. -/
def CameraAnalyzer.wasMotionDetected (ca : CameraAnalyzer) (cvt : Pixel → Nat)
    (frame : ColorFrame) (lastFrame : Option ColorFrame) : Except DetectError Bool :=
  if totalPixels frame = 0 then .error .emptyFrame
  else
    match lastFrame with
    | none => .error .unsupportedInput
    | some lf =>
      if totalPixels lf = 0 then .error .emptyFrame
      else
        let gray1 := cvtGray cvt frame
        let gray2 := cvtGray cvt lf
        if shape gray1 = shape gray2 then
          let diff := absdiffG gray1 gray2
          let thresh := thresholdBin 25 diff
          let changed := countNonzero thresh
          let total := numRows thresh * numCols thresh
          .ok (decide (((changed : ℚ) / (total : ℚ)) * 100 ≥ ca.motion_threshold))
        else .error .dimensionMismatch

/-- A contour as the repository consumes it: `cv2.findContours` yields
connected components of the binary mask, of which the source reads exactly
the `cv2.contourArea` (a float) and the `cv2.boundingRect`
(x, y, width, height). -/
structure Contour where
  area : ℚ
  rect : Nat × Nat × Nat × Nat
  deriving DecidableEq

/-- State of `examples/example_motion_detector.MotionDetector`. -/
structure MotionDetector where
  camera_index : Int
  threshold : Int
  min_area : ℚ
  previous_frame : Option Gray
  deriving DecidableEq

/-- Embedding of `MotionDetector.__init__(camera_index=0, threshold=25,
min_area=500)` (lines 13-25): every argument is stored unvalidated and the
reference frame starts absent.  No configuration check of any kind is
performed and construction cannot fail. -/
def MotionDetector.init (camera_index : Int) (threshold : Int) (min_area : ℚ) :
    MotionDetector :=
  { camera_index := camera_index
    threshold := threshold
    min_area := min_area
    previous_frame := none }

/-- One pixel of a grayscale frame, 0 outside the frame (morphology border
handling of `cv2.dilate`, whose default border acts as the neutral element
of max). -/
def getPx (g : Gray) (i j : Nat) : Nat := (g.getD i []).getD j 0

/-- Maximum over the 3x3 neighbourhood of (i, j), the effect of one
`cv2.dilate` pass with the default (`None`) 3x3 rectangular kernel.
Truncated Nat subtraction clamps the indices at the top/left borders; the
clamped duplicates are in-range neighbours anyway, so the maximum is over
exactly the in-range 3x3 neighbourhood. -/
def nbhdMax (g : Gray) (i j : Nat) : Nat :=
  max (max (max (getPx g (i - 1) (j - 1)) (getPx g (i - 1) j))
           (max (getPx g (i - 1) (j + 1)) (getPx g i (j - 1))))
      (max (max (getPx g i j) (getPx g i (j + 1)))
           (max (getPx g (i + 1) (j - 1))
                (max (getPx g (i + 1) j) (getPx g (i + 1) (j + 1)))))

/-- One iteration of `cv2.dilate(thresh, None)`: 3x3 neighbourhood maximum
at every position; shape preserving. -/
def dilateOnce (g : Gray) : Gray :=
  (List.range g.length).map (fun i =>
    (List.range ((g.getD i []).length)).map (fun j => nbhdMax g i j))

/-- Models `cv2.dilate(thresh, None, iterations=2)` (line 113). -/
def dilate2 (g : Gray) : Gray := dilateOnce (dilateOnce g)

/-- Whether pixel (row i, col j) lies on the thickness-2 border band of the
axis-aligned rectangle from (x, y) to (x + w, y + h). -/
def onBorder (r : Nat × Nat × Nat × Nat) (i j : Nat) : Bool :=
  decide (r.1 ≤ j) && decide (j ≤ r.1 + r.2.2.1) &&
  decide (r.2.1 ≤ i) && decide (i ≤ r.2.1 + r.2.2.2) &&
  (decide (j ≤ r.1 + 1) || decide (r.1 + r.2.2.1 ≤ j + 1) ||
   decide (i ≤ r.2.1 + 1) || decide (r.2.1 + r.2.2.2 ≤ i + 1))

/-- Models `cv2.rectangle(frame, (x, y), (x + w, y + h), (0, 255, 0), 2)`
(line 131): overwrite the border band of the rectangle with the BGR colour
(0, 255, 0).  The exact sub-pixel rasterisation of OpenCV is immaterial here;
what the claims depend on is that the drawing happens on the array passed in,
which in the source is the caller's input frame itself (no copy is taken). -/
def drawRect (f : ColorFrame) (r : Nat × Nat × Nat × Nat) : ColorFrame :=
  f.mapIdx (fun i row => row.mapIdx (fun j p =>
    if onBorder r i j then (0, 255, 0) else p))

/-- Embedding of `MotionDetector.detect_motion(frame)` (lines 89-136).

`pre` models the preprocessing `cv2.GaussianBlur(cv2.cvtColor(frame,
COLOR_BGR2GRAY), (21, 21), 0)` of lines 100-101 (an external shape-preserving
kernel, hence a parameter); `fc` models `cv2.findContours(..., RETR_EXTERNAL,
CHAIN_APPROX_SIMPLE)` of lines 116-117 together with the per-contour
`cv2.contourArea` and `cv2.boundingRect` reads.

The returned triple is (motion verdict, the frame the function returns,
the detector with its updated reference).  The source draws the bounding
boxes with `cv2.rectangle` directly on the input array and returns that very
array, so the second component is also the content of the caller's frame
buffer after the call.  On the first call (no stored reference) the source
stores the blurred grayscale and returns `(False, frame)` untouched.  A size
mismatch between the stored reference and the current blurred grayscale makes
`cv2.absdiff` raise, in which case `self.previous_frame` is not updated. -/
def detectMotion (pre : ColorFrame → Gray) (fc : Gray → List Contour)
    (d : MotionDetector) (frame : ColorFrame) :
    Except DetectError (Bool × ColorFrame × MotionDetector) :=
  let gray := pre frame
  match d.previous_frame with
  | none => .ok (false, frame, { d with previous_frame := some gray })
  | some prev =>
    if shape prev = shape gray then
      let mask := dilate2 (thresholdBin d.threshold (absdiffG prev gray))
      let surv := (fc mask).filter (fun c => decide (¬ c.area < d.min_area))
      .ok (!surv.isEmpty,
           surv.foldl (fun acc c => drawRect acc c.rect) frame,
           { d with previous_frame := some gray })
    else .error .dimensionMismatch

/-- A Python runtime error surfacing in the driver. -/
inductive PyError where
  | nameNotDefined (n : String)
  | importFailed (n : String)
  deriving DecidableEq

/-- Left-pad a number with zeros, the `{n:06d}` format of line 302. -/
def padZeros (width : Nat) (n : Nat) : String :=
  String.mk (List.replicate (width - (toString n).length) '0') ++ toString n

/-- The auto-save filename of `CameraAnalyzer.run` (lines 300-303):
`frame_{frame_count:06d}_{HHMMSS}.jpg`. -/
def frameFilename (frameCount : Nat) (hhmmss : String) : String :=
  "frame_" ++ padZeros 6 frameCount ++ "_" ++ hhmmss ++ ".jpg"

/-- The auto-save branch of `CameraAnalyzer.run` (lines 298-305), executed
after `frame_count` was incremented: when `save_interval` is set (truthy) and
divides the frame count, the source computes `filename` and then calls
`cv2.imwrite(str(filename), annotated)` — but `annotated` is never assigned
(its assignment on line 299 is commented out), so the branch raises
`NameError` instead of writing the file.  Returns the saved filename when the
branch is skipped or, per the code, the raised error. -/
def autoSaveStep (saveInterval : Option Nat) (frameCount : Nat) :
    Except PyError (Option String) :=
  match saveInterval with
  | none => .ok none
  | some si =>
    if si ≠ 0 ∧ frameCount % si = 0 then .error (.nameNotDefined ("annotated"))
    else .ok none

/-- Top-level names defined by the module `camera_analyzer`: the class
`CameraAnalyzer` (line 28) and the function `main` (line 355). -/
def cameraAnalyzerExports : List String := ["CameraAnalyzer", "main"]

/-- Python `from module import name`: succeeds iff the module defines the
name, otherwise raises. -/
def resolveImport (exports : List String) (n : String) : Except PyError Unit :=
  if n ∈ exports then .ok () else .error (.importFailed n)

/-- The import phase of `src/main.py` (lines 1-2): it imports
`CameraAnalyzerInterface` and then `CameraReader` from `camera_analyzer`;
nothing below those lines runs unless both succeed. -/
def mainPyStartup : Except PyError Unit := do
  let _ ← resolveImport cameraAnalyzerExports ("CameraAnalyzerInterface")
  resolveImport cameraAnalyzerExports ("CameraReader")

/-! ### Shape and counting lemmas -/

lemma shape_cvtGray (cvt : Pixel → Nat) (f : ColorFrame) :
    shape (cvtGray cvt f) = shape f := by
  simp [shape, cvtGray, List.map_map, Function.comp]

lemma shape_thresholdBin (t : Int) (g : Gray) :
    shape (thresholdBin t g) = shape g := by
  simp [shape, thresholdBin, List.map_map, Function.comp]

lemma shape_absdiffG : ∀ (a b : Gray), shape a = shape b →
    shape (absdiffG a b) = shape a
  | [], _, _ => by simp [absdiffG, shape]
  | _ :: _, [], h => by simp [shape] at h
  | a :: as, b :: bs, h => by
    simp only [shape, List.map_cons, List.cons.injEq] at h
    have ih := shape_absdiffG as bs (by simp only [shape]; exact h.2)
    simp only [absdiffG, List.zipWith_cons_cons, shape, List.map_cons,
      List.cons.injEq]
    constructor
    · rw [List.length_zipWith, h.1, Nat.min_self]
    · simpa only [absdiffG, shape] using ih

lemma numRows_of_shape {α β : Type} {a : List (List α)} {b : List (List β)}
    (h : shape a = shape b) : numRows a = numRows b := by
  simpa [shape, numRows] using congrArg List.length h

lemma numCols_of_shape : ∀ {α β : Type} {a : List (List α)} {b : List (List β)},
    shape a = shape b → numCols a = numCols b
  | _, _, [], [], _ => rfl
  | _, _, [], _ :: _, h => by simp [shape] at h
  | _, _, _ :: _, [], h => by simp [shape] at h
  | _, _, r :: _, s :: _, h => by
    simp only [shape, List.map_cons, List.cons.injEq] at h
    simpa [numCols] using h.1

lemma countP_threshRow (t : Int) (r : List Nat) :
    (r.map (fun (v : Nat) => if (v : Int) > t then (255 : Nat) else 0)).countP
        (fun v => decide (v ≠ 0))
      = r.countP (fun (v : Nat) => decide ((v : Int) > t)) := by
  rw [List.countP_map]
  congr 1
  funext x
  by_cases h : (x : Int) > t
  · simp [Function.comp, h]
  · simp [Function.comp, h]

lemma countNonzero_thresholdBin (t : Int) (g : Gray) :
    countNonzero (thresholdBin t g)
      = (g.map (fun r => r.countP (fun (v : Nat) => decide ((v : Int) > t)))).sum := by
  unfold countNonzero thresholdBin
  rw [List.map_map]
  refine congrArg List.sum (List.map_congr_left ?_)
  intro r _
  simpa only [Function.comp_apply] using countP_threshRow t r

/-! ### All-zero frames: the difference of a frame with itself stays zero
through the whole mask pipeline. -/

/-- Every pixel of the grayscale frame is zero. -/
abbrev allZero (g : Gray) : Prop := ∀ r ∈ g, ∀ v ∈ r, v = 0

lemma rowGetD_zero : ∀ (r : List Nat), (∀ v ∈ r, v = 0) → ∀ j, r.getD j 0 = 0
  | [], _, _ => by simp
  | v :: r, h, 0 => h v (List.mem_cons_self v r)
  | v :: r, h, j + 1 => by
    simpa using rowGetD_zero r (fun x hx => h x (List.mem_cons_of_mem v hx)) j

lemma getPx_of_allZero : ∀ (g : Gray), allZero g → ∀ i j, getPx g i j = 0
  | [], _, _, _ => by simp [getPx]
  | r :: g, h, 0, j => rowGetD_zero r (h r (List.mem_cons_self r g)) j
  | r :: g, h, i + 1, j =>
    getPx_of_allZero g (fun s hs => h s (List.mem_cons_of_mem r hs)) i j

lemma nbhdMax_of_allZero {g : Gray} (h : allZero g) (i j : Nat) :
    nbhdMax g i j = 0 := by
  simp [nbhdMax, getPx_of_allZero g h]

lemma allZero_dilateOnce {g : Gray} (h : allZero g) : allZero (dilateOnce g) := by
  intro r hr v hv
  simp only [dilateOnce, List.mem_map, List.mem_range] at hr
  obtain ⟨i, -, rfl⟩ := hr
  simp only [List.mem_map, List.mem_range] at hv
  obtain ⟨j, -, rfl⟩ := hv
  exact nbhdMax_of_allZero h i j

lemma allZero_thresholdBin {t : Int} (ht : 0 ≤ t) {g : Gray} (h : allZero g) :
    allZero (thresholdBin t g) := by
  intro r hr v hv
  simp only [thresholdBin, List.mem_map] at hr
  obtain ⟨r0, hr0, rfl⟩ := hr
  simp only [List.mem_map] at hv
  obtain ⟨x, hx, rfl⟩ := hv
  have hx0 : x = 0 := h r0 hr0 x hx
  subst hx0
  simp only [Nat.cast_zero]
  rw [if_neg (by omega)]

lemma zipWith_dist_self : ∀ (l : List Nat),
    List.zipWith Nat.dist l l = l.map (fun _ => 0)
  | [] => rfl
  | a :: l => by
    simp [List.zipWith_cons_cons, Nat.dist_self, zipWith_dist_self l]

lemma allZero_absdiffG_self : ∀ (g : Gray), allZero (absdiffG g g)
  | [] => by intro r hr; simp [absdiffG] at hr
  | a :: g => by
    intro r hr v hv
    simp only [absdiffG, List.zipWith_cons_cons] at hr
    rcases List.mem_cons.mp hr with rfl | hr
    · rw [zipWith_dist_self] at hv
      obtain ⟨x, -, hx⟩ := List.mem_map.mp hv
      exact hx.symm
    · exact allZero_absdiffG_self g r hr v hv

lemma allZero_mask {t : Int} (ht : 0 ≤ t) (g : Gray) :
    allZero (dilate2 (thresholdBin t (absdiffG g g))) :=
  allZero_dilateOnce (allZero_dilateOnce
    (allZero_thresholdBin ht (allZero_absdiffG_self g)))

/-- Whenever a contour-variant detection call completes, the stored reference
equals the current frame's blurred grayscale, regardless of the verdict. -/
lemma detectMotion_ref_update (pre : ColorFrame → Gray) (fc : Gray → List Contour)
    (d : MotionDetector) (f : ColorFrame) (res : Bool × ColorFrame × MotionDetector)
    (h : detectMotion pre fc d f = .ok res) :
    res.2.2.previous_frame = some (pre f) := by
  rcases hp : d.previous_frame with _ | prev
  · simp only [detectMotion, hp] at h
    simp only [Except.ok.injEq] at h
    subst h
    rfl
  · simp only [detectMotion, hp] at h
    split at h
    · simp only [Except.ok.injEq] at h
      subst h
      rfl
    · simp at h

/-! ### Characterisations of the percentage-change detector -/

lemma wasMotionDetected_some (ca : CameraAnalyzer) (cvt : Pixel → Nat)
    (f lf : ColorFrame) :
    ca.wasMotionDetected cvt f (some lf)
      = if totalPixels f = 0 then .error .emptyFrame
        else if totalPixels lf = 0 then .error .emptyFrame
        else if shape (cvtGray cvt f) = shape (cvtGray cvt lf) then
          .ok (decide (((countNonzero (thresholdBin 25
                (absdiffG (cvtGray cvt f) (cvtGray cvt lf))) : ℚ) /
              ((numRows (thresholdBin 25 (absdiffG (cvtGray cvt f) (cvtGray cvt lf)))
                * numCols (thresholdBin 25 (absdiffG (cvtGray cvt f) (cvtGray cvt lf)))
                : Nat) : ℚ)) * 100 ≥ ca.motion_threshold))
        else .error .dimensionMismatch := rfl

lemma wasMotionDetected_none (ca : CameraAnalyzer) (cvt : Pixel → Nat)
    (f : ColorFrame) :
    ca.wasMotionDetected cvt f none
      = if totalPixels f = 0 then .error .emptyFrame
        else .error .unsupportedInput := rfl

/-! ### Claims -/

/-- C8: for the percentage-change variant, whenever either compared frame has
zero pixels the call fails with the empty-frame error (the exception
`cv2.cvtColor` raises on an empty array), never returning a verdict. -/
theorem emptyFrame_error (ca : CameraAnalyzer) (cvt : Pixel → Nat)
    (f lf : ColorFrame) (h : totalPixels f = 0 ∨ totalPixels lf = 0) :
    ca.wasMotionDetected cvt f (some lf) = .error .emptyFrame := by
  rw [wasMotionDetected_some]
  rcases h with h | h
  · rw [if_pos h]
  · by_cases h1 : totalPixels f = 0
    · rw [if_pos h1]
    · rw [if_neg h1, if_pos h]

/-- Witness for `emptyFrame_error`: a zero-row frame against a 1x1 frame. -/
theorem emptyFrame_error_witness :
    CameraAnalyzer.init.wasMotionDetected (fun p => p.1) [] (some [[(0, 0, 0)]])
      = .error .emptyFrame :=
  emptyFrame_error CameraAnalyzer.init (fun p => p.1) [] [[(0, 0, 0)]] (Or.inl rfl)

/-- C7 (counterexample): a pair of frames whose widths differ (0 versus 1) on
which the percentage-change detector fails with the empty-frame error, not
with the dimension-mismatch error: the emptiness failure of `cv2.cvtColor`
precedes the size check of `cv2.absdiff`. -/
theorem dimensionMismatch_cex :
    CameraAnalyzer.init.wasMotionDetected (fun p => p.1) [[], []]
        (some [[(0, 0, 0)], [(0, 0, 0)]])
      = .error .emptyFrame
    ∧ DetectError.emptyFrame ≠ DetectError.dimensionMismatch
    ∧ numCols ([[], []] : ColorFrame) ≠ numCols [[(0, 0, 0)], [(0, 0, 0)]] := by
  refine ⟨rfl, by decide, by decide⟩

/-- C7 (amended): for every pair of nonempty rectangular frames whose widths
or heights differ, the percentage-change detector fails with the
dimension-mismatch error (never truncating or resizing); an empty frame in
the pair fails with the empty-frame error first. -/
theorem dimensionMismatch_nonempty (ca : CameraAnalyzer) (cvt : Pixel → Nat)
    (f lf : ColorFrame)
    (hr1 : isRect f) (hr2 : isRect lf)
    (h1 : totalPixels f ≠ 0) (h2 : totalPixels lf ≠ 0)
    (hne : numRows f ≠ numRows lf ∨ numCols f ≠ numCols lf) :
    ca.wasMotionDetected cvt f (some lf) = .error .dimensionMismatch := by
  have hs : shape (cvtGray cvt f) ≠ shape (cvtGray cvt lf) := by
    rw [shape_cvtGray, shape_cvtGray, hr1, hr2]
    intro hrep
    have hlen : f.length = lf.length := by
      simpa using congrArg List.length hrep
    have hf0 : f.length ≠ 0 := by
      intro h
      apply h1
      unfold totalPixels numRows
      rw [h, Nat.zero_mul]
    have hcols : numCols f = numCols lf := by
      rcases hn : f.length with _ | k
      · exact absurd hn hf0
      · rw [hn] at hrep
        rw [← hlen, hn] at hrep
        simpa using congrArg (fun l => l.headD 0) hrep
    rcases hne with h | h
    · exact h hlen
    · exact h hcols
  rw [wasMotionDetected_some, if_neg h1, if_neg h2, if_neg hs]

/-- Witness for `dimensionMismatch_nonempty`: a 1x1 frame against a 1x2
frame. -/
theorem dimensionMismatch_nonempty_witness :
    CameraAnalyzer.init.wasMotionDetected (fun p => p.1) [[(0, 0, 0)]]
        (some [[(0, 0, 0), (0, 0, 0)]])
      = .error .dimensionMismatch :=
  dimensionMismatch_nonempty CameraAnalyzer.init (fun p => p.1) [[(0, 0, 0)]]
    [[(0, 0, 0), (0, 0, 0)]] (by decide) (by decide) (by decide) (by decide)
    (Or.inr (by decide))

/-- C2 (counterexample): the percentage-change variant called with an absent
previous frame does not return a false verdict; it fails (the source has no
absent-frame path and `cv2.cvtColor(None, ...)` raises). -/
theorem percentVariant_firstCall_cex :
    CameraAnalyzer.init.wasMotionDetected (fun p => p.1) [[(1, 2, 3)]] none
      ≠ .ok false := by decide

/-- C2 (amended): the contour variant's first call — no stored reference —
returns a false verdict, the unannotated input frame, and stores the blurred
grayscale as the new reference; the percentage-change variant, by contrast,
never returns a verdict when the previous frame is absent: it always fails. -/
theorem firstCall_corrected (pre : ColorFrame → Gray) (fc : Gray → List Contour)
    (d : MotionDetector) (f : ColorFrame) (hprev : d.previous_frame = none)
    (ca : CameraAnalyzer) (cvt : Pixel → Nat) (g : ColorFrame) :
    detectMotion pre fc d f = .ok (false, f, { d with previous_frame := some (pre f) })
    ∧ ∃ e, ca.wasMotionDetected cvt g none = .error e := by
  constructor
  · simp [detectMotion, hprev]
  · rw [wasMotionDetected_none]
    by_cases h : totalPixels g = 0
    · exact ⟨.emptyFrame, by rw [if_pos h]⟩
    · exact ⟨.unsupportedInput, by rw [if_neg h]⟩

/-- Witness for `firstCall_corrected` on a freshly constructed detector. -/
theorem firstCall_corrected_witness :
    detectMotion (fun _ => [[0]]) (fun _ => []) (MotionDetector.init 0 25 500)
        [[(5, 5, 5)]]
      = .ok (false, [[(5, 5, 5)]],
          { MotionDetector.init 0 25 500 with previous_frame := some [[0]] })
    ∧ ∃ e, CameraAnalyzer.init.wasMotionDetected (fun p => p.1) [[(5, 5, 5)]] none
        = .error e :=
  firstCall_corrected (fun _ => [[0]]) (fun _ => []) (MotionDetector.init 0 25 500)
    [[(5, 5, 5)]] rfl CameraAnalyzer.init (fun p => p.1) [[(5, 5, 5)]]

/-- C6 (counterexample): constructing the contour-variant detector with an
intensity threshold of 300 (outside 0..255) and a negative minimum area
succeeds and yields a fully usable detector: the arguments are stored as
given and a detection call completes normally. -/
theorem construction_unvalidated_cex :
    (MotionDetector.init 0 300 (-1)).threshold = 300
    ∧ (MotionDetector.init 0 300 (-1)).min_area = -1
    ∧ detectMotion (fun _ => [[0]]) (fun _ => []) (MotionDetector.init 0 300 (-1))
          [[(1, 1, 1)]]
        = .ok (false, [[(1, 1, 1)]],
            { MotionDetector.init 0 300 (-1) with previous_frame := some [[0]] }) :=
  ⟨rfl, rfl, rfl⟩

/-- C6 (amended): neither constructor validates its configuration.
`MotionDetector.__init__` stores any camera index, intensity threshold and
minimum area unchecked (the blur kernel size is the fixed literal 21, not a
constructor parameter), leaves the reference absent, and the resulting
detector is usable: its first detection call completes.
`CameraAnalyzer.__init__` takes no detection parameter at all. -/
theorem construction_unvalidated (ci t : Int) (m : ℚ) (pre : ColorFrame → Gray)
    (fc : Gray → List Contour) (f : ColorFrame) :
    (MotionDetector.init ci t m).camera_index = ci
    ∧ (MotionDetector.init ci t m).threshold = t
    ∧ (MotionDetector.init ci t m).min_area = m
    ∧ (MotionDetector.init ci t m).previous_frame = none
    ∧ detectMotion pre fc (MotionDetector.init ci t m) f
        = .ok (false, f,
            { MotionDetector.init ci t m with previous_frame := some (pre f) }) :=
  ⟨rfl, rfl, rfl, rfl, rfl⟩

/-- C9: the auto-save branch of `CameraAnalyzer.run` raises `NameError` at
every save point instead of writing the frame, because the variable
`annotated` passed to `cv2.imwrite` is never assigned (its assignment is
commented out); the filename the source formats before failing does follow
the `frame_{count:06d}_{HHMMSS}.jpg` pattern. -/
theorem autoSave_nameError :
    autoSaveStep (some 1) 1 = .error (.nameNotDefined ("annotated"))
    ∧ frameFilename 1 ("103000") = "frame_000001_103000.jpg" :=
  ⟨rfl, rfl⟩

/-- C10: the driver entry point `src/main.py` fails at import time on every
run: the module `camera_analyzer` defines neither `CameraAnalyzerInterface`
nor `CameraReader`, the first import therefore raises, and nothing sequenced
after the import phase (reaction registration, `run`) can ever execute. -/
theorem mainPy_importFailure :
    mainPyStartup = .error (.importFailed ("CameraAnalyzerInterface"))
    ∧ ("CameraAnalyzerInterface" ∉ cameraAnalyzerExports)
    ∧ ("CameraReader" ∉ cameraAnalyzerExports)
    ∧ ∀ k : Unit → Except PyError Unit,
        (mainPyStartup >>= k) = .error (.importFailed ("CameraAnalyzerInterface")) :=
  ⟨rfl, by decide, by decide, fun k => rfl⟩

/-- C1: for the percentage-change variant on two nonempty rectangular frames
of identical dimensions, the verdict equals
`changedFraction >= motion_threshold` with
`changedFraction = k / n * 100`, where `k` is the number of pixels whose
grayscale absolute intensity difference strictly exceeds the intensity
threshold 25 and `n` the total pixel count; a fraction exactly equal to the
threshold yields `true`, and the configured threshold of the constructed
analyzer is the literal 0.30 (= 3/10). -/
theorem percentVariant_changedFraction (ca : CameraAnalyzer) (cvt : Pixel → Nat)
    (f lf : ColorFrame)
    (hr1 : isRect f) (hr2 : isRect lf)
    (hh : numRows f = numRows lf) (hw : numCols f = numCols lf)
    (h0 : totalPixels f ≠ 0) :
    ca.wasMotionDetected cvt f (some lf)
      = .ok (decide (((changedPixelCount (cvtGray cvt f) (cvtGray cvt lf) : ℚ) /
          (totalPixels f : ℚ)) * 100 ≥ ca.motion_threshold))
    ∧ (((changedPixelCount (cvtGray cvt f) (cvtGray cvt lf) : ℚ) /
          (totalPixels f : ℚ)) * 100 = ca.motion_threshold
        → ca.wasMotionDetected cvt f (some lf) = .ok true)
    ∧ CameraAnalyzer.init.motion_threshold = 3 / 10 := by
  have hlf0 : totalPixels lf ≠ 0 := by
    unfold totalPixels
    rw [← hh, ← hw]
    exact h0
  have hs : shape (cvtGray cvt f) = shape (cvtGray cvt lf) := by
    rw [shape_cvtGray, shape_cvtGray, hr1, hr2,
      show f.length = lf.length from hh, hw]
  have hth : shape (thresholdBin 25 (absdiffG (cvtGray cvt f) (cvtGray cvt lf)))
      = shape f := by
    rw [shape_thresholdBin, shape_absdiffG _ _ hs, shape_cvtGray]
  have hcount : countNonzero (thresholdBin 25
        (absdiffG (cvtGray cvt f) (cvtGray cvt lf)))
      = changedPixelCount (cvtGray cvt f) (cvtGray cvt lf) :=
    countNonzero_thresholdBin 25 _
  have hrows : numRows (thresholdBin 25 (absdiffG (cvtGray cvt f) (cvtGray cvt lf)))
      = numRows f := numRows_of_shape hth
  have hcols : numCols (thresholdBin 25 (absdiffG (cvtGray cvt f) (cvtGray cvt lf)))
      = numCols f := numCols_of_shape hth
  have key : ca.wasMotionDetected cvt f (some lf)
      = .ok (decide (((changedPixelCount (cvtGray cvt f) (cvtGray cvt lf) : ℚ) /
          (totalPixels f : ℚ)) * 100 ≥ ca.motion_threshold)) := by
    rw [wasMotionDetected_some, if_neg h0, if_neg hlf0, if_pos hs, hcount, hrows,
      hcols]
    rfl
  refine ⟨key, fun heq => ?_, rfl⟩
  rw [key, heq]
  simp

/-- Witness for `percentVariant_changedFraction` on a 1x1 pair differing by
30 in the first channel. -/
theorem percentVariant_changedFraction_witness :
    CameraAnalyzer.init.wasMotionDetected (fun p => p.1) [[(30, 0, 0)]]
        (some [[(0, 0, 0)]])
      = .ok (decide (((changedPixelCount (cvtGray (fun p => p.1) [[(30, 0, 0)]])
            (cvtGray (fun p => p.1) [[(0, 0, 0)]]) : ℚ) /
          (totalPixels ([[(30, 0, 0)]] : ColorFrame) : ℚ)) * 100
            ≥ CameraAnalyzer.init.motion_threshold))
    ∧ (((changedPixelCount (cvtGray (fun p => p.1) [[(30, 0, 0)]])
            (cvtGray (fun p => p.1) [[(0, 0, 0)]]) : ℚ) /
          (totalPixels ([[(30, 0, 0)]] : ColorFrame) : ℚ)) * 100
            = CameraAnalyzer.init.motion_threshold
        → CameraAnalyzer.init.wasMotionDetected (fun p => p.1) [[(30, 0, 0)]]
            (some [[(0, 0, 0)]]) = .ok true)
    ∧ CameraAnalyzer.init.motion_threshold = 3 / 10 :=
  percentVariant_changedFraction CameraAnalyzer.init (fun p => p.1) [[(30, 0, 0)]]
    [[(0, 0, 0)]] (by decide) (by decide) (by decide) (by decide) (by decide)

/-- C3: for the contour variant with a reference frame present (and the usual
size-consistent preprocessing), the call returns a verdict that is true iff
some contour of the dilated binary difference mask has area at least the
configured minimum, the returned frame carries a drawn bounding rectangle for
exactly the surviving contours, and the reference is replaced by the current
blurred grayscale. -/
theorem contourVariant_verdict (pre : ColorFrame → Gray) (fc : Gray → List Contour)
    (d : MotionDetector) (f : ColorFrame) (prev : Gray)
    (hprev : d.previous_frame = some prev) (hdim : shape prev = shape (pre f)) :
    ∃ verdict annotated,
      detectMotion pre fc d f
        = .ok (verdict, annotated, { d with previous_frame := some (pre f) })
      ∧ (verdict = true
          ↔ ∃ c ∈ fc (dilate2 (thresholdBin d.threshold (absdiffG prev (pre f)))),
              d.min_area ≤ c.area)
      ∧ annotated
          = ((fc (dilate2 (thresholdBin d.threshold (absdiffG prev (pre f))))).filter
              (fun c => decide (¬ c.area < d.min_area))).foldl
              (fun acc c => drawRect acc c.rect) f := by
  refine ⟨!((fc (dilate2 (thresholdBin d.threshold (absdiffG prev (pre f))))).filter
      (fun c => decide (¬ c.area < d.min_area))).isEmpty,
    ((fc (dilate2 (thresholdBin d.threshold (absdiffG prev (pre f))))).filter
      (fun c => decide (¬ c.area < d.min_area))).foldl
      (fun acc c => drawRect acc c.rect) f, ?_, ?_, rfl⟩
  · simp only [detectMotion, hprev]
    rw [if_pos hdim]
  · simp only [Bool.not_eq_true', List.isEmpty_eq_false, ne_eq]
    constructor
    · intro h
      obtain ⟨c, hc⟩ := List.exists_mem_of_ne_nil _ h
      obtain ⟨hcl, hp⟩ := List.mem_filter.mp hc
      exact ⟨c, hcl, not_lt.mp (of_decide_eq_true hp)⟩
    · rintro ⟨c, hcl, hle⟩ hnil
      have hmem : c ∈ (fc (dilate2 (thresholdBin d.threshold
          (absdiffG prev (pre f))))).filter (fun c => decide (¬ c.area < d.min_area)) :=
        List.mem_filter.mpr ⟨hcl, decide_eq_true (not_lt.mpr hle)⟩
      rw [hnil] at hmem
      simp at hmem

/-- Witness for `contourVariant_verdict` with a single large contour. -/
theorem contourVariant_verdict_witness :
    ∃ verdict annotated,
      detectMotion (fun _ => [[30]]) (fun _ => [{ area := 600, rect := (0, 0, 2, 2) }])
          { camera_index := 0, threshold := 25, min_area := 500,
            previous_frame := some [[0]] } [[(7, 7, 7)]]
        = .ok (verdict, annotated,
            { camera_index := 0, threshold := 25, min_area := 500,
              previous_frame := some [[30]] })
      ∧ (verdict = true
          ↔ ∃ c ∈ [({ area := 600, rect := (0, 0, 2, 2) } : Contour)],
              (500 : ℚ) ≤ c.area)
      ∧ annotated
          = ([({ area := 600, rect := (0, 0, 2, 2) } : Contour)].filter
              (fun c => decide (¬ c.area < (500 : ℚ)))).foldl
              (fun acc c => drawRect acc c.rect) [[(7, 7, 7)]] :=
  contourVariant_verdict (fun _ => [[30]])
    (fun _ => [{ area := 600, rect := (0, 0, 2, 2) }])
    { camera_index := 0, threshold := 25, min_area := 500,
      previous_frame := some [[0]] } [[(7, 7, 7)]] [[0]] rfl (by decide)

/-- C4: for the contour variant, every completed detection call stores the
current frame's blurred grayscale as the new reference regardless of the
verdict; feeding frames A, A, B to a fresh detector yields false (no
reference), then false (A against A: the difference mask is all zero, so no
contours), then some threshold-dependent verdict for B against A — after
which the stored reference is B's blurred grayscale.  The hypotheses record
the two facts about the external primitives this needs: `cv2.findContours`
finds no contours in an all-zero mask, and preprocessing yields
size-consistent arrays. -/
theorem referenceFrame_update (pre : ColorFrame → Gray) (fc : Gray → List Contour)
    (ci t : Int) (m : ℚ) (A B : ColorFrame)
    (ht : 0 ≤ t)
    (hfc : ∀ g, allZero g → fc g = [])
    (hdim : shape (pre A) = shape (pre B)) :
    (∀ (d : MotionDetector) (f : ColorFrame) (res : Bool × ColorFrame × MotionDetector),
        detectMotion pre fc d f = .ok res → res.2.2.previous_frame = some (pre f))
    ∧ detectMotion pre fc (MotionDetector.init ci t m) A
        = .ok (false, A, { MotionDetector.init ci t m with previous_frame := some (pre A) })
    ∧ detectMotion pre fc
          { MotionDetector.init ci t m with previous_frame := some (pre A) } A
        = .ok (false, A, { MotionDetector.init ci t m with previous_frame := some (pre A) })
    ∧ ∃ verdict annotated,
        detectMotion pre fc
            { MotionDetector.init ci t m with previous_frame := some (pre A) } B
          = .ok (verdict, annotated,
              { MotionDetector.init ci t m with previous_frame := some (pre B) }) := by
  refine ⟨fun d f res h => detectMotion_ref_update pre fc d f res h, rfl, ?_, ?_⟩
  · simp only [detectMotion, MotionDetector.init]
    rw [if_pos trivial, hfc _ (allZero_mask ht (pre A))]
    simp
  · refine ⟨!((fc (dilate2 (thresholdBin t (absdiffG (pre A) (pre B))))).filter
        (fun c => decide (¬ c.area < m))).isEmpty,
      ((fc (dilate2 (thresholdBin t (absdiffG (pre A) (pre B))))).filter
        (fun c => decide (¬ c.area < m))).foldl
        (fun acc c => drawRect acc c.rect) B, ?_⟩
    simp only [detectMotion, MotionDetector.init]
    rw [if_pos hdim]

/-- Witness for `referenceFrame_update` with constant preprocessing and a
contour finder that returns no contours. -/
theorem referenceFrame_update_witness :
    (∀ (d : MotionDetector) (f : ColorFrame) (res : Bool × ColorFrame × MotionDetector),
        detectMotion (fun _ => [[0]]) (fun _ => []) d f = .ok res
          → res.2.2.previous_frame = some ((fun (_ : ColorFrame) => ([[0]] : Gray)) f))
    ∧ detectMotion (fun _ => [[0]]) (fun _ => []) (MotionDetector.init 0 25 500)
          [[(0, 0, 0)]]
        = .ok (false, [[(0, 0, 0)]],
            { MotionDetector.init 0 25 500 with previous_frame := some [[0]] })
    ∧ detectMotion (fun _ => [[0]]) (fun _ => [])
          { MotionDetector.init 0 25 500 with previous_frame := some [[0]] }
          [[(0, 0, 0)]]
        = .ok (false, [[(0, 0, 0)]],
            { MotionDetector.init 0 25 500 with previous_frame := some [[0]] })
    ∧ ∃ verdict annotated,
        detectMotion (fun _ => [[0]]) (fun _ => [])
            { MotionDetector.init 0 25 500 with previous_frame := some [[0]] }
            [[(9, 9, 9)]]
          = .ok (verdict, annotated,
              { MotionDetector.init 0 25 500 with previous_frame := some [[0]] }) :=
  referenceFrame_update (fun _ => [[0]]) (fun _ => []) 0 25 500 [[(0, 0, 0)]]
    [[(9, 9, 9)]] (by decide) (fun _ _ => rfl) rfl

/-- C5 (counterexample): a detection call on a 2x2 white frame with one
surviving contour returns, as its processed frame, the input array with the
bounding rectangle drawn over it — and in the source that array is the
caller's own frame buffer (`cv2.rectangle` draws in place on the input and
the very same object is returned), whose content now differs from the
original: no copy is ever taken. -/
theorem annotate_mutates_cex :
    detectMotion (fun _ => [[30]]) (fun _ => [{ area := 9, rect := (0, 0, 1, 1) }])
        { camera_index := 0, threshold := 25, min_area := 4,
          previous_frame := some [[0]] }
        [[(255, 255, 255), (255, 255, 255)], [(255, 255, 255), (255, 255, 255)]]
      = .ok (true,
          [[(0, 255, 0), (0, 255, 0)], [(0, 255, 0), (0, 255, 0)]],
          { camera_index := 0, threshold := 25, min_area := 4,
            previous_frame := some [[30]] })
    ∧ ([[(0, 255, 0), (0, 255, 0)], [(0, 255, 0), (0, 255, 0)]] : ColorFrame)
        ≠ [[(255, 255, 255), (255, 255, 255)], [(255, 255, 255), (255, 255, 255)]] := by
  constructor
  · have hq : (decide (¬ (9 : ℚ) < 4)) = true := decide_eq_true (by norm_num)
    have hc : shape ([[0]] : Gray) = shape ([[30]] : Gray) := by decide
    simp only [detectMotion]
    rw [if_pos hc]
    simp only [List.filter_cons, List.filter_nil, hq, if_true]
    rfl
  · decide

/-- C5 (amended): the contour variant draws its bounding boxes in place on
the caller's input frame — the processed frame it returns (aliasing the
caller's buffer) is the input folded with one rectangle per surviving
contour, not an annotation of a copy; only when no contour survives is the
frame returned with its content unchanged. -/
theorem annotate_inplace (pre : ColorFrame → Gray) (fc : Gray → List Contour)
    (d : MotionDetector) (f : ColorFrame) (prev : Gray)
    (hprev : d.previous_frame = some prev) (hdim : shape prev = shape (pre f)) :
    detectMotion pre fc d f
      = .ok (!((fc (dilate2 (thresholdBin d.threshold (absdiffG prev (pre f))))).filter
                (fun c => decide (¬ c.area < d.min_area))).isEmpty,
             ((fc (dilate2 (thresholdBin d.threshold (absdiffG prev (pre f))))).filter
                (fun c => decide (¬ c.area < d.min_area))).foldl
               (fun acc c => drawRect acc c.rect) f,
             { d with previous_frame := some (pre f) })
    ∧ (((fc (dilate2 (thresholdBin d.threshold (absdiffG prev (pre f))))).filter
          (fun c => decide (¬ c.area < d.min_area))) = []
        → detectMotion pre fc d f
            = .ok (false, f, { d with previous_frame := some (pre f) })) := by
  have hkey : detectMotion pre fc d f
      = .ok (!((fc (dilate2 (thresholdBin d.threshold (absdiffG prev (pre f))))).filter
                (fun c => decide (¬ c.area < d.min_area))).isEmpty,
             ((fc (dilate2 (thresholdBin d.threshold (absdiffG prev (pre f))))).filter
                (fun c => decide (¬ c.area < d.min_area))).foldl
               (fun acc c => drawRect acc c.rect) f,
             { d with previous_frame := some (pre f) }) := by
    simp only [detectMotion, hprev]
    rw [if_pos hdim]
  refine ⟨hkey, fun hnil => ?_⟩
  rw [hkey, hnil]
  simp

/-- Witness for `annotate_inplace` with no surviving contour: the frame
comes back unchanged. -/
theorem annotate_inplace_witness :
    detectMotion (fun _ => [[0]]) (fun _ => [])
        { camera_index := 0, threshold := 25, min_area := 500,
          previous_frame := some [[0]] } [[(8, 8, 8)]]
      = .ok (!(((fun (_ : Gray) => ([] : List Contour))
                (dilate2 (thresholdBin 25 (absdiffG [[0]] [[0]])))).filter
                (fun c => decide (¬ c.area < (500 : ℚ)))).isEmpty,
             (((fun (_ : Gray) => ([] : List Contour))
                (dilate2 (thresholdBin 25 (absdiffG [[0]] [[0]])))).filter
                (fun c => decide (¬ c.area < (500 : ℚ)))).foldl
               (fun acc c => drawRect acc c.rect) [[(8, 8, 8)]],
             { camera_index := 0, threshold := 25, min_area := 500,
               previous_frame := some [[0]] })
    ∧ ((((fun (_ : Gray) => ([] : List Contour))
          (dilate2 (thresholdBin 25 (absdiffG [[0]] [[0]])))).filter
          (fun c => decide (¬ c.area < (500 : ℚ)))) = []
        → detectMotion (fun _ => [[0]]) (fun _ => [])
            { camera_index := 0, threshold := 25, min_area := 500,
              previous_frame := some [[0]] } [[(8, 8, 8)]]
          = .ok (false, [[(8, 8, 8)]],
              { camera_index := 0, threshold := 25, min_area := 500,
                previous_frame := some [[0]] })) :=
  annotate_inplace (fun _ => [[0]]) (fun _ => [])
    { camera_index := 0, threshold := 25, min_area := 500,
      previous_frame := some [[0]] } [[(8, 8, 8)]] [[0]] rfl (by decide)

end HammyCam
